import Mathlib

/-!
# FMailer Terraform provider: API client and resource reconciler

A shallow embedding of `client.go` and `resource_domain_template.go`.

* Go `int` is `Int`; no arithmetic is done on it, only decimal rendering
  and JSON decoding, where the 64-bit range is checked.
* A Go slice that may be nil is `Option (List _)`: `none` is the nil slice,
  `some []` the empty non-nil slice (`make(..., 0, n)`).
* A `time.Time` is identified with the RFC 3339 text that encoding/json
  writes for it.
* JSON is handled at the level of values (`JVal`); the text parser of
  encoding/json, the time parser and the request validation of net/http
  are parameters (`GoLib`). Object keys are matched exactly against the
  struct tags and a repeated key is decoded afresh, the later value
  winning; no object written by the encoder repeats a key or differs from
  a tag in case.
* The `*http.Client` is a `Transport`: the requests sent so far and the
  replies still to come, so every server behaviour is a choice of replies.
* `schema.ResourceData` is a record of the schema's fields, the
  instance id and the set of keys the host reports as changed.
-/

namespace FMailer

/-! ## JSON values and the Go runtime -/

/-- JSON values as encoding/json writes and reads them. A number literal
that is not an integer literal is kept as its text. -/
inductive JVal where
  | null
  | bool (b : Bool)
  | int (n : Int)
  | float (lit : String)
  | str (s : String)
  | arr (xs : List JVal)
  | obj (fields : List (String × JVal))

/-- The keys of a JSON object, in order; no keys for any other value. -/
def JVal.keys : JVal → List String
  | .obj fields => fields.map Prod.fst
  | _ => []

/-- A time.Time, identified with its RFC 3339 text. -/
structure Time where
  text : String
deriving DecidableEq, Repr

/-- The zero time.Time. -/
def Time.zero : Time := ⟨"0001-01-01T00:00:00Z"⟩

/-- Text of `t.Format(time.RFC3339)`: the RFC 3339 text without the
fractional seconds. -/
def Time.Format (t : Time) : String :=
  let cs := t.text.toList
  let whole := cs.takeWhile (fun ch => ch ≠ '.')
  let rest := ((cs.dropWhile (fun ch => ch ≠ '.')).drop 1).dropWhile Char.isDigit
  String.mk (whole ++ rest)

/-- The parts of the Go standard library the client calls and the model
does not implement. -/
structure GoLib where
  /-- The first JSON value of a response body, as json.Decoder reads it. -/
  parseJSON : String → Option JVal
  /-- Result of time.Time.UnmarshalJSON on the content of a JSON string. -/
  parseTime : String → Option Time
  /-- The error of http.NewRequest for a method and a URL, if any. -/
  newRequestErr : String → String → Option String

/-- Rendering of the `%d` verb. -/
def fmtD (n : Int) : String := toString n

/-- Whether an integer fits Go's 64-bit `int`. -/
def fitsInt (n : Int) : Bool := decide (-(2 : Int) ^ 63 ≤ n) && decide (n < (2 : Int) ^ 63)

/-! ## Data model (client.go) -/

/-- DomainTemplateLang represents a domain template language. -/
structure DomainTemplateLang where
  ID : Int := 0
  UUID : String := ""
  CreatedAt : Time := Time.zero
  UpdatedAt : Time := Time.zero
  Subject : String := ""
  Body : String := ""
  Lang : String := ""
  Default : Bool := false
  Template : Int := 0
deriving DecidableEq, Repr

/-- DomainTemplate represents a domain template. -/
structure DomainTemplate where
  ID : Int := 0
  UUID : String := ""
  CreatedAt : Time := Time.zero
  UpdatedAt : Time := Time.zero
  Name : String := ""
  Slug : String := ""
  AllowCopy : Bool := false
  Editable : Bool := false
  Domain : Int := 0
  Langs : Option (List DomainTemplateLang) := none
deriving DecidableEq, Repr

/-- Go's `len` of a slice that may be nil. -/
def sliceLen {α : Type} : Option (List α) → Nat
  | none => 0
  | some xs => xs.length

/-! ## encoding/json under the struct tags -/

/-- A field tagged `omitempty`: left out when its value is empty. -/
def omitEmpty (key : String) (empty : Bool) (v : JVal) : List (String × JVal) :=
  if empty then [] else [(key, v)]

/-- Result of json.Marshal on a DomainTemplateLang. `omitempty` has no effect on
the two time.Time fields, a struct is never empty. -/
def encodeDomainTemplateLang (l : DomainTemplateLang) : JVal :=
  .obj (omitEmpty "id" (l.ID == 0) (.int l.ID)
    ++ omitEmpty "uuid" (l.UUID == "") (.str l.UUID)
    ++ [("created_at", .str l.CreatedAt.text),
        ("updated_at", .str l.UpdatedAt.text),
        ("subject", .str l.Subject),
        ("body", .str l.Body),
        ("lang", .str l.Lang)]
    ++ omitEmpty "default" (!l.Default) (.bool l.Default)
    ++ omitEmpty "template" (l.Template == 0) (.int l.Template))

/-- Result of json.Marshal on a DomainTemplate. -/
def encodeDomainTemplate (e : DomainTemplate) : JVal :=
  .obj (omitEmpty "id" (e.ID == 0) (.int e.ID)
    ++ omitEmpty "uuid" (e.UUID == "") (.str e.UUID)
    ++ [("created_at", .str e.CreatedAt.text),
        ("updated_at", .str e.UpdatedAt.text),
        ("name", .str e.Name),
        ("slug", .str e.Slug)]
    ++ omitEmpty "allow_copy" (!e.AllowCopy) (.bool e.AllowCopy)
    ++ omitEmpty "editable" (!e.Editable) (.bool e.Editable)
    ++ [("domain", .int e.Domain)]
    ++ omitEmpty "langs" (sliceLen e.Langs == 0)
        (.arr ((e.Langs.getD []).map encodeDomainTemplateLang)))

/-- Decoding into an `int` field holding `cur`: null leaves it, an integer
literal in range sets it, anything else is an error. -/
def asInt (cur : Int) : JVal → Option Int
  | .null => some cur
  | .int n => if fitsInt n then some n else none
  | _ => none

/-- Decoding into a `string` field holding `cur`. -/
def asString (cur : String) : JVal → Option String
  | .null => some cur
  | .str s => some s
  | _ => none

/-- Decoding into a `bool` field holding `cur`. -/
def asBool (cur : Bool) : JVal → Option Bool
  | .null => some cur
  | .bool b => some b
  | _ => none

/-- Decoding into a time.Time field holding `cur`. -/
def asTime (lib : GoLib) (cur : Time) : JVal → Option Time
  | .null => some cur
  | .str s => lib.parseTime s
  | _ => none

/-- One object member decoded into a DomainTemplateLang; a key no tag names is
skipped. Keys are matched exactly. -/
def setLangField (lib : GoLib) (l : DomainTemplateLang) (key : String) (v : JVal) :
    Option DomainTemplateLang :=
  if key = "id" then (asInt l.ID v).map (fun x => { l with ID := x })
  else if key = "uuid" then (asString l.UUID v).map (fun x => { l with UUID := x })
  else if key = "created_at" then (asTime lib l.CreatedAt v).map (fun x => { l with CreatedAt := x })
  else if key = "updated_at" then (asTime lib l.UpdatedAt v).map (fun x => { l with UpdatedAt := x })
  else if key = "subject" then (asString l.Subject v).map (fun x => { l with Subject := x })
  else if key = "body" then (asString l.Body v).map (fun x => { l with Body := x })
  else if key = "lang" then (asString l.Lang v).map (fun x => { l with Lang := x })
  else if key = "default" then (asBool l.Default v).map (fun x => { l with Default := x })
  else if key = "template" then (asInt l.Template v).map (fun x => { l with Template := x })
  else some l

/-- The members of an object decoded one after the other into `l`. -/
def setLangFields (lib : GoLib) (l : DomainTemplateLang) :
    List (String × JVal) → Option DomainTemplateLang
  | [] => some l
  | (key, v) :: rest =>
    match setLangField lib l key v with
    | none => none
    | some l1 => setLangFields lib l1 rest

/-- Result of json.Unmarshal into a zero DomainTemplateLang. -/
def decodeDomainTemplateLang (lib : GoLib) : JVal → Option DomainTemplateLang
  | .null => some {}
  | .obj fields => setLangFields lib {} fields
  | _ => none

/-- The elements of a JSON array decoded as DomainTemplateLang values. -/
def decodeLangList (lib : GoLib) : List JVal → Option (List DomainTemplateLang)
  | [] => some []
  | v :: rest =>
    match decodeDomainTemplateLang lib v with
    | none => none
    | some l =>
      match decodeLangList lib rest with
      | none => none
      | some ls => some (l :: ls)

/-- Decoding into the `langs` slice: null sets it to nil, an array decodes
element by element (an empty array gives an empty non-nil slice). -/
def asLangs (lib : GoLib) : JVal → Option (Option (List DomainTemplateLang))
  | .null => some none
  | .arr xs => (decodeLangList lib xs).map some
  | _ => none

/-- One object member decoded into a DomainTemplate. -/
def setTemplateField (lib : GoLib) (e : DomainTemplate) (key : String) (v : JVal) :
    Option DomainTemplate :=
  if key = "id" then (asInt e.ID v).map (fun x => { e with ID := x })
  else if key = "uuid" then (asString e.UUID v).map (fun x => { e with UUID := x })
  else if key = "created_at" then (asTime lib e.CreatedAt v).map (fun x => { e with CreatedAt := x })
  else if key = "updated_at" then (asTime lib e.UpdatedAt v).map (fun x => { e with UpdatedAt := x })
  else if key = "name" then (asString e.Name v).map (fun x => { e with Name := x })
  else if key = "slug" then (asString e.Slug v).map (fun x => { e with Slug := x })
  else if key = "allow_copy" then (asBool e.AllowCopy v).map (fun x => { e with AllowCopy := x })
  else if key = "editable" then (asBool e.Editable v).map (fun x => { e with Editable := x })
  else if key = "domain" then (asInt e.Domain v).map (fun x => { e with Domain := x })
  else if key = "langs" then (asLangs lib v).map (fun x => { e with Langs := x })
  else some e

/-- The members of an object decoded one after the other into `e`. -/
def setTemplateFields (lib : GoLib) (e : DomainTemplate) :
    List (String × JVal) → Option DomainTemplate
  | [] => some e
  | (key, v) :: rest =>
    match setTemplateField lib e key v with
    | none => none
    | some e1 => setTemplateFields lib e1 rest

/-- Result of json.Unmarshal into a zero DomainTemplate. -/
def decodeDomainTemplate (lib : GoLib) : JVal → Option DomainTemplate
  | .null => some {}
  | .obj fields => setTemplateFields lib {} fields
  | _ => none

/-- Result of `json.NewDecoder(res.Body).Decode(&result)` for a DomainTemplate. -/
def decodeBody (lib : GoLib) (body : String) : Except String DomainTemplate :=
  match lib.parseJSON body with
  | none => .error "json: invalid response body"
  | some v =>
    match decodeDomainTemplate lib v with
    | none => .error "json: cannot unmarshal response body"
    | some e => .ok e

/-- PaginatedDomainTemplateList represents a paginated list of domain templates. -/
structure PaginatedDomainTemplateList where
  Count : Int := 0
  Next : Option String := none
  Previous : Option String := none
  Results : Option (List DomainTemplate) := none
deriving DecidableEq, Repr

/-- Decoding into a `*string` field: null sets it to nil. -/
def asStringPtr : JVal → Option (Option String)
  | .null => some none
  | .str s => some (some s)
  | _ => none

/-- The elements of a JSON array decoded as DomainTemplate values. -/
def decodeTemplateList (lib : GoLib) : List JVal → Option (List DomainTemplate)
  | [] => some []
  | v :: rest =>
    match decodeDomainTemplate lib v with
    | none => none
    | some e =>
      match decodeTemplateList lib rest with
      | none => none
      | some es => some (e :: es)

/-- Decoding into the `results` slice. -/
def asResults (lib : GoLib) : JVal → Option (Option (List DomainTemplate))
  | .null => some none
  | .arr xs => (decodeTemplateList lib xs).map some
  | _ => none

/-- One object member decoded into a PaginatedDomainTemplateList. -/
def setPageField (lib : GoLib) (p : PaginatedDomainTemplateList) (key : String) (v : JVal) :
    Option PaginatedDomainTemplateList :=
  if key = "count" then (asInt p.Count v).map (fun x => { p with Count := x })
  else if key = "next" then (asStringPtr v).map (fun x => { p with Next := x })
  else if key = "previous" then (asStringPtr v).map (fun x => { p with Previous := x })
  else if key = "results" then (asResults lib v).map (fun x => { p with Results := x })
  else some p

/-- The members of an object decoded one after the other into `p`. -/
def setPageFields (lib : GoLib) (p : PaginatedDomainTemplateList) :
    List (String × JVal) → Option PaginatedDomainTemplateList
  | [] => some p
  | (key, v) :: rest =>
    match setPageField lib p key v with
    | none => none
    | some p1 => setPageFields lib p1 rest

/-- Result of `json.NewDecoder(res.Body).Decode(&result)` for a page. -/
def decodePageBody (lib : GoLib) (body : String) : Except String PaginatedDomainTemplateList :=
  match lib.parseJSON body with
  | none => .error "json: invalid response body"
  | some .null => .ok {}
  | some (.obj fields) =>
    match setPageFields lib {} fields with
    | none => .error "json: cannot unmarshal response body"
    | some p => .ok p
  | some _ => .error "json: cannot unmarshal response body"

/-! ## HTTP -/

/-- An http.Request: method, URL, the headers in the order they were set,
and the JSON body if there is one. -/
structure Request where
  method : String
  url : String
  header : List (String × String) := []
  body : Option JVal := none

/-- An http.Response: status code and body text. -/
structure Response where
  StatusCode : Int
  Body : String
deriving DecidableEq, Repr

/-- The http.Client seen from the program: the requests it has been handed,
oldest first, and the outcomes of the calls to come (a transport error or a
response). -/
structure Transport where
  sent : List Request := []
  replies : List (Except String Response) := []

/-- Result of `httpClient.Do(req)`: the request goes out and the next outcome comes
back; with no outcome left the call fails as a transport error. -/
def Transport.Do (t : Transport) (req : Request) : Except String Response × Transport :=
  match t.replies with
  | [] => (.error "http: no response", { sent := t.sent ++ [req], replies := [] })
  | r :: rest => (r, { sent := t.sent ++ [req], replies := rest })

/-- Result of `http.NewRequest(method, url, body)`. -/
def NewRequest (lib : GoLib) (method url : String) (body : Option JVal) : Except String Request :=
  match lib.newRequestErr method url with
  | some err => .error err
  | none => .ok { method := method, url := url, header := [], body := body }

/-- Effect of `req.Header.Set(key, value)`. -/
def Request.setHeader (req : Request) (key value : String) : Request :=
  { req with header := req.header.filter (fun kv => kv.1 ≠ key) ++ [(key, value)] }

/-- Client represents the FMailer API client; its httpClient is the
Transport passed to each call. -/
structure Client where
  endpoint : String
  token : String
deriving DecidableEq, Repr

/-- The check every operation but delete runs on the response: status 200,
then the body decoded. -/
def expectOK (lib : GoLib) (res : Response) : Except String DomainTemplate :=
  if res.StatusCode ≠ 200 then
    .error ("unexpected status code: " ++ fmtD res.StatusCode)
  else
    decodeBody lib res.Body

/-- CreateDomainTemplate creates a new domain template. -/
def Client.CreateDomainTemplate (lib : GoLib) (c : Client) (domainTemplate : DomainTemplate)
    (t : Transport) : Except String DomainTemplate × Transport :=
  let body := encodeDomainTemplate domainTemplate
  match NewRequest lib "POST" (c.endpoint ++ "/api/domains/templates/") (some body) with
  | .error err => (.error err, t)
  | .ok req =>
    let req := (req.setHeader "Content-Type" "application/json").setHeader "Authorization" c.token
    match t.Do req with
    | (.error err, t1) => (.error err, t1)
    | (.ok res, t1) => (expectOK lib res, t1)

/-- GetDomainTemplate gets a domain template by UUID. -/
def Client.GetDomainTemplate (lib : GoLib) (c : Client) (uuid : String)
    (t : Transport) : Except String DomainTemplate × Transport :=
  match NewRequest lib "GET" (c.endpoint ++ "/api/domains/templates/" ++ uuid ++ "/") none with
  | .error err => (.error err, t)
  | .ok req =>
    let req := req.setHeader "Authorization" c.token
    match t.Do req with
    | (.error err, t1) => (.error err, t1)
    | (.ok res, t1) => (expectOK lib res, t1)

/-- UpdateDomainTemplate updates a domain template. -/
def Client.UpdateDomainTemplate (lib : GoLib) (c : Client) (uuid : String)
    (domainTemplate : DomainTemplate) (t : Transport) : Except String DomainTemplate × Transport :=
  let body := encodeDomainTemplate domainTemplate
  match NewRequest lib "PUT" (c.endpoint ++ "/api/domains/templates/" ++ uuid ++ "/") (some body) with
  | .error err => (.error err, t)
  | .ok req =>
    let req := (req.setHeader "Content-Type" "application/json").setHeader "Authorization" c.token
    match t.Do req with
    | (.error err, t1) => (.error err, t1)
    | (.ok res, t1) => (expectOK lib res, t1)

/-- DeleteDomainTemplate deletes a domain template; `none` is the nil error. -/
def Client.DeleteDomainTemplate (lib : GoLib) (c : Client) (uuid : String)
    (t : Transport) : Option String × Transport :=
  match NewRequest lib "DELETE" (c.endpoint ++ "/api/domains/templates/" ++ uuid ++ "/") none with
  | .error err => (some err, t)
  | .ok req =>
    let req := req.setHeader "Authorization" c.token
    match t.Do req with
    | (.error err, t1) => (some err, t1)
    | (.ok res, t1) =>
      if res.StatusCode ≠ 204 then
        (some ("unexpected status code: " ++ fmtD res.StatusCode ++ ", body: " ++ res.Body), t1)
      else
        (none, t1)

/-- The URL ListDomainTemplates builds from its four optional filters. -/
def listURL (c : Client) (domain : Option Int) (search : Option String) (page : Option Int)
    (ordering : Option String) : String :=
  let url := c.endpoint ++ "/api/domains/templates/"
  let first := true
  let (url, first) :=
    match domain with
    | some v => (url ++ ("?domain=" ++ fmtD v), false)
    | none => (url, first)
  let (url, first) :=
    match search with
    | some v => ((if first then url ++ "?" else url ++ "&") ++ ("search=" ++ v), false)
    | none => (url, first)
  let (url, first) :=
    match page with
    | some v => ((if first then url ++ "?" else url ++ "&") ++ ("page=" ++ fmtD v), false)
    | none => (url, first)
  match ordering with
  | some v => (if first then url ++ "?" else url ++ "&") ++ ("ordering=" ++ v)
  | none => url

/-- ListDomainTemplates lists domain templates with optional filters. -/
def Client.ListDomainTemplates (lib : GoLib) (c : Client) (domain : Option Int)
    (search : Option String) (page : Option Int) (ordering : Option String)
    (t : Transport) : Except String PaginatedDomainTemplateList × Transport :=
  match NewRequest lib "GET" (listURL c domain search page ordering) none with
  | .error err => (.error err, t)
  | .ok req =>
    let req := req.setHeader "Authorization" c.token
    match t.Do req with
    | (.error err, t1) => (.error err, t1)
    | (.ok res, t1) =>
      if res.StatusCode ≠ 200 then
        (.error ("unexpected status code: " ++ fmtD res.StatusCode), t1)
      else
        (decodePageBody lib res.Body, t1)

/-! ## Resource reconciler (resource_domain_template.go) -/

/-- One element of the `langs` list of the schema. -/
structure LangConfig where
  lang : String
  subject : String
  body : String
  default : Bool
deriving DecidableEq, Repr

/-- The schema.ResourceData of one instance: its id, the value `d.Get`
returns for each key of the schema (`d.Set` overwrites it), and the keys for
which `d.HasChange` answers true. -/
structure ResourceData where
  id : String := ""
  uuid : String := ""
  name : String := ""
  slug : String := ""
  domain : Int := 0
  allow_copy : Bool := true
  editable : Bool := true
  created_at : String := ""
  updated_at : String := ""
  langs : List LangConfig := []
  changed : List String := []
deriving DecidableEq, Repr

/-- Answer of `d.HasChange(key)`. -/
def ResourceData.HasChange (d : ResourceData) (key : String) : Bool :=
  d.changed.contains key

/-- Diagnostics returned to the host: the summaries of the error diagnostics,
empty when the operation succeeded. -/
abbrev Diagnostics := List String

/-- Result of `diag.FromErr(err)`. -/
def diagFromErr (err : String) : Diagnostics := [err]

/-- The langs of the configuration as client entities, each with the given
`template` back-reference (the loops of Create and Update). -/
def langsFromConfig (langs : List LangConfig) (template : Int) : List DomainTemplateLang :=
  langs.map (fun langMap =>
    { Lang := langMap.lang, Subject := langMap.subject, Body := langMap.body,
      Default := langMap.default, Template := template })

/-- The langs of a fetched entity as state values (the loop of Read). -/
def langsToState (langs : List DomainTemplateLang) : List LangConfig :=
  langs.map (fun lang =>
    { lang := lang.Lang, subject := lang.Subject, body := lang.Body, default := lang.Default })

/-- Code of resourceDomainTemplateRead. -/
def resourceDomainTemplateRead (lib : GoLib) (client : Client) (d : ResourceData)
    (t : Transport) : Diagnostics × ResourceData × Transport :=
  match client.GetDomainTemplate lib d.id t with
  | (.error err, t1) => (diagFromErr err, d, t1)
  | (.ok domainTemplate, t1) =>
    let d := { d with
      uuid := domainTemplate.UUID
      name := domainTemplate.Name
      slug := domainTemplate.Slug
      domain := domainTemplate.Domain
      allow_copy := domainTemplate.AllowCopy
      editable := domainTemplate.Editable
      created_at := domainTemplate.CreatedAt.Format
      updated_at := domainTemplate.UpdatedAt.Format }
    let d :=
      if domainTemplate.Langs.isSome && decide (sliceLen domainTemplate.Langs > 0) then
        { d with langs := langsToState (domainTemplate.Langs.getD []) }
      else d
    ([], d, t1)

/-- Code of resourceDomainTemplateCreate. -/
def resourceDomainTemplateCreate (lib : GoLib) (client : Client) (d : ResourceData)
    (t : Transport) : Diagnostics × ResourceData × Transport :=
  let domainTemplate : DomainTemplate :=
    { Name := d.name, Slug := d.slug, Domain := d.domain,
      AllowCopy := d.allow_copy, Editable := d.editable }
  match client.CreateDomainTemplate lib domainTemplate t with
  | (.error err, t1) => (diagFromErr err, d, t1)
  | (.ok createdTemplate, t1) =>
    let d := { d with id := createdTemplate.UUID }
    let langs := d.langs
    if langs.length > 0 then
      let templateWithLangs : DomainTemplate :=
        { Name := createdTemplate.Name, Slug := createdTemplate.Slug,
          Domain := createdTemplate.Domain, AllowCopy := createdTemplate.AllowCopy,
          Editable := createdTemplate.Editable,
          Langs := some (langsFromConfig langs createdTemplate.ID) }
      match client.UpdateDomainTemplate lib createdTemplate.UUID templateWithLangs t1 with
      | (.error err, t2) => (diagFromErr err, d, t2)
      | (.ok _, t2) => resourceDomainTemplateRead lib client d t2
    else
      resourceDomainTemplateRead lib client d t1

/-- The keys resourceDomainTemplateUpdate asks `d.HasChange` about. -/
def watchedKeys : List String := ["langs", "name", "slug", "allow_copy", "editable"]

/-- Code of resourceDomainTemplateUpdate. -/
def resourceDomainTemplateUpdate (lib : GoLib) (client : Client) (d : ResourceData)
    (t : Transport) : Diagnostics × ResourceData × Transport :=
  let domainTemplate : DomainTemplate :=
    { Name := d.name, Slug := d.slug, AllowCopy := d.allow_copy,
      Editable := d.editable, Domain := d.domain }
  if d.HasChange "langs" || d.HasChange "name" || d.HasChange "slug"
      || d.HasChange "allow_copy" || d.HasChange "editable" then
    let langs := d.langs
    let domainTemplate := { domainTemplate with Langs := some (langsFromConfig langs 0) }
    match client.UpdateDomainTemplate lib d.id domainTemplate t with
    | (.error err, t1) => (diagFromErr err, d, t1)
    | (.ok _, t1) => resourceDomainTemplateRead lib client d t1
  else
    resourceDomainTemplateRead lib client d t

/-- Code of resourceDomainTemplateDelete. -/
def resourceDomainTemplateDelete (lib : GoLib) (client : Client) (d : ResourceData)
    (t : Transport) : Diagnostics × ResourceData × Transport :=
  match client.DeleteDomainTemplate lib d.id t with
  | (some err, t1) => (diagFromErr err, d, t1)
  | (none, t1) => ([], { d with id := "" }, t1)

/-! ## The specification's wording of the list query -/

/-- The query string as the specification words it: the filters that are
present, rendered as domain, search, page, ordering in that order, with a
question mark before the first and an ampersand before each later one. -/
def specQuery (domain : Option Int) (search : Option String) (page : Option Int)
    (ordering : Option String) : String :=
  let present : List String :=
    [domain.map (fun v => "domain=" ++ fmtD v),
     search.map (fun v => "search=" ++ v),
     page.map (fun v => "page=" ++ fmtD v),
     ordering.map (fun v => "ordering=" ++ v)].reduceOption
  match present with
  | [] => ""
  | p :: rest => "?" ++ p ++ String.join (rest.map (fun q => "&" ++ q))

/-! ## Validity of entities, expected requests and concrete inputs -/

/-- A DomainTemplateLang the codec can carry: its integers fit `int` and its times
are texts the time parser reads back. -/
def validLang (lib : GoLib) (l : DomainTemplateLang) : Bool :=
  fitsInt l.ID && fitsInt l.Template
    && decide (lib.parseTime l.CreatedAt.text = some l.CreatedAt)
    && decide (lib.parseTime l.UpdatedAt.text = some l.UpdatedAt)

/-- A DomainTemplate the codec can carry. -/
def validTemplate (lib : GoLib) (e : DomainTemplate) : Bool :=
  fitsInt e.ID && fitsInt e.Domain
    && decide (lib.parseTime e.CreatedAt.text = some e.CreatedAt)
    && decide (lib.parseTime e.UpdatedAt.text = some e.UpdatedAt)
    && (e.Langs.getD []).all (validLang lib)

/-- What decoding makes of a `langs` slice that was encoded: an empty slice
was left out of the object, so it comes back nil. -/
def nilIfEmpty (langs : Option (List DomainTemplateLang)) : Option (List DomainTemplateLang) :=
  if sliceLen langs == 0 then none else langs

/-- The request CreateDomainTemplate hands to the transport. -/
def postRequest (c : Client) (e : DomainTemplate) : Request :=
  { method := "POST", url := c.endpoint ++ "/api/domains/templates/",
    header := [("Content-Type", "application/json"), ("Authorization", c.token)],
    body := some (encodeDomainTemplate e) }

/-- The request UpdateDomainTemplate hands to the transport. -/
def putRequest (c : Client) (uuid : String) (e : DomainTemplate) : Request :=
  { method := "PUT", url := c.endpoint ++ "/api/domains/templates/" ++ uuid ++ "/",
    header := [("Content-Type", "application/json"), ("Authorization", c.token)],
    body := some (encodeDomainTemplate e) }

/-- The request GetDomainTemplate hands to the transport. -/
def getRequest (c : Client) (uuid : String) : Request :=
  { method := "GET", url := c.endpoint ++ "/api/domains/templates/" ++ uuid ++ "/",
    header := [("Authorization", c.token)], body := none }

/-- The request DeleteDomainTemplate hands to the transport. -/
def deleteRequest (c : Client) (uuid : String) : Request :=
  { method := "DELETE", url := c.endpoint ++ "/api/domains/templates/" ++ uuid ++ "/",
    header := [("Authorization", c.token)], body := none }

/-- What a call that reaches `httpClient.Do` with `req` leaves of the transport. -/
def Transport.after (t : Transport) (req : Request) : Transport :=
  { sent := t.sent ++ [req], replies := t.replies.tail }

/-- A JSON object with the member `key` removed; any other value as it is. -/
def JVal.without (key : String) : JVal → JVal
  | .obj fields => .obj (fields.filter (fun kv => kv.1 ≠ key))
  | v => v

/-- The configuration of the specification's create scenario. -/
def scenarioConfig : ResourceData :=
  { name := "Welcome", slug := "welcome-1", domain := 5,
    langs := [{ lang := "en", subject := "Hi", body := "Hello", default := true }] }

/-- A server representation of the scenario's template, as JSON. -/
def scenarioReply : JVal :=
  .obj [("id", .int 7), ("uuid", .str "u-7"), ("name", .str "Welcome"),
        ("slug", .str "welcome-1"), ("allow_copy", .bool true), ("editable", .bool true),
        ("domain", .int 5),
        ("langs", .arr [.obj [("subject", .str "Hi"), ("body", .str "Hello"),
                              ("lang", .str "en"), ("default", .bool true),
                              ("template", .int 7)]])]

/-- The entity `scenarioReply` decodes to. -/
def scenarioEntity : DomainTemplate :=
  { ID := 7, UUID := "u-7", Name := "Welcome", Slug := "welcome-1", AllowCopy := true,
    Editable := true, Domain := 5,
    Langs := some [{ Subject := "Hi", Body := "Hello", Lang := "en", Default := true,
                     Template := 7 }] }

/-- A runtime for concrete runs: every response body parses to `reply`,
every time text is read back as written, every request can be built. -/
def testLib (reply : JVal) : GoLib :=
  { parseJSON := fun _ => some reply
    parseTime := fun s => some ⟨s⟩
    newRequestErr := fun _ _ => none }

/-- A client for concrete runs. -/
def testClient : Client := { endpoint := "https://api.fmailer.com", token := "tok" }

/-! ## Lemmas on the codec -/

theorem decode_encode_lang (lib : GoLib) (l : DomainTemplateLang) (h : validLang lib l = true) :
    decodeDomainTemplateLang lib (encodeDomainTemplateLang l) = some l := by
  obtain ⟨id, uuid, ca, ua, subj, body, lang, dflt, tmpl⟩ := l
  simp only [validLang, Bool.and_eq_true, decide_eq_true_eq] at h
  obtain ⟨⟨⟨h1, h2⟩, h3⟩, h4⟩ := h
  by_cases hid : id = 0 <;> by_cases hu : uuid = "" <;> cases dflt <;> by_cases ht : tmpl = 0 <;>
    simp [encodeDomainTemplateLang, decodeDomainTemplateLang, omitEmpty, setLangFields,
      setLangField, asInt, asString, asBool, asTime, Time.zero, *]

theorem decode_encode_langs (lib : GoLib) (ls : List DomainTemplateLang)
    (h : ls.all (validLang lib) = true) :
    decodeLangList lib (ls.map encodeDomainTemplateLang) = some ls := by
  induction ls with
  | nil => rfl
  | cons l rest ih =>
    simp only [List.all_cons, Bool.and_eq_true] at h
    simp [decodeLangList, decode_encode_lang lib l h.1, ih h.2]

theorem decode_encode_template (lib : GoLib) (e : DomainTemplate)
    (h : validTemplate lib e = true) :
    decodeDomainTemplate lib (encodeDomainTemplate e)
      = some { e with Langs := nilIfEmpty e.Langs } := by
  obtain ⟨id, uuid, ca, ua, name, slug, ac, ed, dom, langs⟩ := e
  simp only [validTemplate, Bool.and_eq_true, decide_eq_true_eq] at h
  obtain ⟨⟨⟨⟨h1, h2⟩, h3⟩, h4⟩, h5⟩ := h
  have hl := decode_encode_langs lib (langs.getD []) h5
  rcases langs with _ | ls
  · by_cases hid : id = 0 <;> by_cases hu : uuid = "" <;> cases ac <;> cases ed <;>
      simp [encodeDomainTemplate, decodeDomainTemplate, omitEmpty, setTemplateFields,
        setTemplateField, asInt, asString, asBool, asTime, Time.zero, sliceLen, nilIfEmpty, *]
  · rcases ls with _ | ⟨l, rest⟩
    · by_cases hid : id = 0 <;> by_cases hu : uuid = "" <;> cases ac <;> cases ed <;>
        simp [encodeDomainTemplate, decodeDomainTemplate, omitEmpty, setTemplateFields,
          setTemplateField, asInt, asString, asBool, asTime, Time.zero, sliceLen, nilIfEmpty, *]
    · simp only [Option.getD_some, List.map_cons] at hl
      by_cases hid : id = 0 <;> by_cases hu : uuid = "" <;> cases ac <;> cases ed <;>
        simp [encodeDomainTemplate, decodeDomainTemplate, omitEmpty, setTemplateFields,
          setTemplateField, asInt, asString, asBool, asTime, asLangs, Time.zero, sliceLen,
          nilIfEmpty, hl, *]

theorem nilIfEmpty_of_ne (langs : Option (List DomainTemplateLang)) (h : langs ≠ some []) :
    nilIfEmpty langs = langs := by
  rcases langs with _ | ls
  · rfl
  · rcases ls with _ | ⟨l, rest⟩
    · exact absurd rfl h
    · simp [nilIfEmpty, sliceLen]

theorem listURL_eq_spec (c : Client) (domain : Option Int) (search : Option String)
    (page : Option Int) (ordering : Option String) :
    listURL c domain search page ordering
      = c.endpoint ++ "/api/domains/templates/" ++ specQuery domain search page ordering := by
  have e1 : "/api/domains/templates/?" = "/api/domains/templates/" ++ "?" := by decide
  have e2 : "?domain=" = "?" ++ "domain=" := by decide
  rcases domain with _ | d <;> rcases search with _ | s <;> rcases page with _ | p <;>
    rcases ordering with _ | o <;>
    simp [listURL, specQuery, List.reduceOption, String.join, String.append_assoc] <;>
    simp only [e1, e2, String.append_assoc]

/-! ## Lemmas on the client -/

theorem Do_eq (t : Transport) (req : Request) :
    t.Do req = ((t.replies.head?).getD (.error "http: no response"), t.after req) := by
  unfold Transport.Do Transport.after
  cases h : t.replies <;> simp

theorem create_run (lib : GoLib) (c : Client) (e : DomainTemplate) (t : Transport)
    (h : lib.newRequestErr "POST" (c.endpoint ++ "/api/domains/templates/") = none) :
    c.CreateDomainTemplate lib e t
      = (match (t.replies.head?).getD (.error "http: no response") with
          | .error err => .error err
          | .ok res => expectOK lib res, t.after (postRequest c e)) := by
  simp only [Client.CreateDomainTemplate, NewRequest, h, Do_eq, Request.setHeader, postRequest]
  cases (t.replies.head?).getD (.error "http: no response") <;> simp

theorem create_fail (lib : GoLib) (c : Client) (e : DomainTemplate) (t : Transport) (err : String)
    (h : lib.newRequestErr "POST" (c.endpoint ++ "/api/domains/templates/") = some err) :
    c.CreateDomainTemplate lib e t = (.error err, t) := by
  simp [Client.CreateDomainTemplate, NewRequest, h]

theorem update_run (lib : GoLib) (c : Client) (uuid : String) (e : DomainTemplate) (t : Transport)
    (h : lib.newRequestErr "PUT" (c.endpoint ++ "/api/domains/templates/" ++ uuid ++ "/") = none) :
    c.UpdateDomainTemplate lib uuid e t
      = (match (t.replies.head?).getD (.error "http: no response") with
          | .error err => .error err
          | .ok res => expectOK lib res, t.after (putRequest c uuid e)) := by
  simp only [Client.UpdateDomainTemplate, NewRequest, h, Do_eq, Request.setHeader, putRequest]
  cases (t.replies.head?).getD (.error "http: no response") <;> simp

theorem update_fail (lib : GoLib) (c : Client) (uuid : String) (e : DomainTemplate) (t : Transport)
    (err : String)
    (h : lib.newRequestErr "PUT" (c.endpoint ++ "/api/domains/templates/" ++ uuid ++ "/")
      = some err) :
    c.UpdateDomainTemplate lib uuid e t = (.error err, t) := by
  simp [Client.UpdateDomainTemplate, NewRequest, h]

theorem get_run (lib : GoLib) (c : Client) (uuid : String) (t : Transport)
    (h : lib.newRequestErr "GET" (c.endpoint ++ "/api/domains/templates/" ++ uuid ++ "/") = none) :
    c.GetDomainTemplate lib uuid t
      = (match (t.replies.head?).getD (.error "http: no response") with
          | .error err => .error err
          | .ok res => expectOK lib res, t.after (getRequest c uuid)) := by
  simp only [Client.GetDomainTemplate, NewRequest, h, Do_eq, Request.setHeader, getRequest]
  cases (t.replies.head?).getD (.error "http: no response") <;> simp

theorem get_fail (lib : GoLib) (c : Client) (uuid : String) (t : Transport) (err : String)
    (h : lib.newRequestErr "GET" (c.endpoint ++ "/api/domains/templates/" ++ uuid ++ "/")
      = some err) :
    c.GetDomainTemplate lib uuid t = (.error err, t) := by
  simp [Client.GetDomainTemplate, NewRequest, h]

theorem delete_run (lib : GoLib) (c : Client) (uuid : String) (t : Transport)
    (h : lib.newRequestErr "DELETE" (c.endpoint ++ "/api/domains/templates/" ++ uuid ++ "/")
      = none) :
    c.DeleteDomainTemplate lib uuid t
      = (match (t.replies.head?).getD (.error "http: no response") with
          | .error err => some err
          | .ok res =>
            if res.StatusCode ≠ 204 then
              some ("unexpected status code: " ++ fmtD res.StatusCode ++ ", body: " ++ res.Body)
            else none, t.after (deleteRequest c uuid)) := by
  simp only [Client.DeleteDomainTemplate, NewRequest, h, Do_eq, Request.setHeader, deleteRequest]
  cases (t.replies.head?).getD (.error "http: no response") <;> simp
  split <;> simp

theorem delete_fail (lib : GoLib) (c : Client) (uuid : String) (t : Transport) (err : String)
    (h : lib.newRequestErr "DELETE" (c.endpoint ++ "/api/domains/templates/" ++ uuid ++ "/")
      = some err) :
    c.DeleteDomainTemplate lib uuid t = (some err, t) := by
  simp [Client.DeleteDomainTemplate, NewRequest, h]

theorem expectOK_ok (lib : GoLib) (res : Response) (r : DomainTemplate) :
    expectOK lib res = .ok r ↔ res.StatusCode = 200 ∧ decodeBody lib res.Body = .ok r := by
  unfold expectOK
  by_cases h : res.StatusCode = 200 <;> simp [h]

theorem expectOK_not_200 (lib : GoLib) (res : Response) (h : res.StatusCode ≠ 200) :
    expectOK lib res = .error ("unexpected status code: " ++ fmtD res.StatusCode) := by
  simp [expectOK, h]

theorem list_sent (lib : GoLib) (c : Client) (domain : Option Int) (search : Option String)
    (page : Option Int) (ordering : Option String) (t : Transport) :
    (c.ListDomainTemplates lib domain search page ordering t).2.sent
      = t.sent ++
        (match lib.newRequestErr "GET" (listURL c domain search page ordering) with
          | none =>
            [{ method := "GET", url := listURL c domain search page ordering,
               header := [("Authorization", c.token)], body := none }]
          | some _ => []) := by
  unfold Client.ListDomainTemplates NewRequest
  cases h : lib.newRequestErr "GET" (listURL c domain search page ordering) with
  | some err => simp
  | none =>
    simp only [Do_eq, Request.setHeader]
    cases (t.replies.head?).getD (.error "http: no response") <;> simp [Transport.after]
    split <;> simp

/-! ## The claims on the client -/

/-- C1: the URL ListDomainTemplates requests is the endpoint, the collection path
and the present filters in the order domain, search, page, ordering, with a
question mark before the first and an ampersand before each later one, and
nothing when no filter is present; with domain 5, search foo, page 2 and
ordering name the query is the one the specification quotes. -/
theorem list_query_in_field_order (lib : GoLib) (c : Client) (domain : Option Int)
    (search : Option String) (page : Option Int) (ordering : Option String) (t : Transport) :
    listURL c domain search page ordering
        = c.endpoint ++ "/api/domains/templates/" ++ specQuery domain search page ordering
    ∧ specQuery (some 5) (some "foo") (some 2) (some "name")
        = "?domain=5&search=foo&page=2&ordering=name"
    ∧ specQuery none none none none = ""
    ∧ (c.ListDomainTemplates lib domain search page ordering t).2.sent
        = t.sent ++
          (match lib.newRequestErr "GET" (listURL c domain search page ordering) with
            | none =>
              [{ method := "GET",
                 url := c.endpoint ++ "/api/domains/templates/"
                          ++ specQuery domain search page ordering,
                 header := [("Authorization", c.token)], body := none }]
            | some _ => []) := by
  refine ⟨listURL_eq_spec c domain search page ordering, by decide, by decide, ?_⟩
  rw [list_sent, listURL_eq_spec]

/-- C4: when the create response has a status other than 200, CreateDomainTemplate
returns the error `unexpected status code: <status>` and no entity, whatever the
body; it returns an entity only when the status is 200 and the body decodes to
that entity, and in that case it does return it. -/
theorem create_requires_status_200 (lib : GoLib) (c : Client) (e : DomainTemplate)
    (t : Transport) :
    (∀ res rest, lib.newRequestErr "POST" (c.endpoint ++ "/api/domains/templates/") = none →
      t.replies = .ok res :: rest → res.StatusCode ≠ 200 →
      (c.CreateDomainTemplate lib e t).1
        = .error ("unexpected status code: " ++ fmtD res.StatusCode))
    ∧ (∀ r, (c.CreateDomainTemplate lib e t).1 = .ok r →
      ∃ res rest, t.replies = .ok res :: rest ∧ res.StatusCode = 200
        ∧ decodeBody lib res.Body = .ok r)
    ∧ (∀ res rest r, lib.newRequestErr "POST" (c.endpoint ++ "/api/domains/templates/") = none →
      t.replies = .ok res :: rest → res.StatusCode = 200 → decodeBody lib res.Body = .ok r →
      (c.CreateDomainTemplate lib e t).1 = .ok r) := by
  refine ⟨?_, ?_, ?_⟩
  · intro res rest hreq hr hs
    rw [create_run lib c e t hreq, hr]
    simp [expectOK_not_200 lib res hs]
  · intro r hok
    cases hreq : lib.newRequestErr "POST" (c.endpoint ++ "/api/domains/templates/") with
    | some err => rw [create_fail lib c e t err hreq] at hok; simp at hok
    | none =>
      rw [create_run lib c e t hreq] at hok
      rcases hrep : t.replies with _ | ⟨rep, rest⟩
      · rw [hrep] at hok; simp at hok
      · rw [hrep] at hok
        cases rep with
        | error err => simp at hok
        | ok res =>
          simp only [List.head?_cons, Option.getD_some] at hok
          exact ⟨res, rest, rfl, (expectOK_ok lib res r).1 hok⟩
  · intro res rest r hreq hr hs hd
    rw [create_run lib c e t hreq, hr]
    simp [(expectOK_ok lib res r).2 ⟨hs, hd⟩]

/-- Witness of C4: a 201 reply to the POST gives the status error. -/
theorem create_requires_status_200_witness :
    (testClient.CreateDomainTemplate (testLib (.obj [("uuid", .str "u-1")]))
        { Name := "Welcome", Slug := "welcome-1", Domain := 5 }
        { sent := [], replies := [.ok { StatusCode := 201, Body := "created" }] }).1
      = .error "unexpected status code: 201" :=
  (create_requires_status_200 (testLib (.obj [("uuid", .str "u-1")])) testClient
      { Name := "Welcome", Slug := "welcome-1", Domain := 5 }
      { sent := [], replies := [.ok { StatusCode := 201, Body := "created" }] }).1
    { StatusCode := 201, Body := "created" } [] rfl rfl (by decide)

/-- C5: once the DELETE has a response, DeleteDomainTemplate returns no error exactly
when the status is 204; for any other status the error is
`unexpected status code: <status>, body: <body>` with the whole body text. -/
theorem delete_requires_status_204 (lib : GoLib) (c : Client) (uuid : String) (t : Transport)
    (res : Response) (rest : List (Except String Response))
    (hreq : lib.newRequestErr "DELETE" (c.endpoint ++ "/api/domains/templates/" ++ uuid ++ "/")
      = none)
    (hr : t.replies = .ok res :: rest) :
    ((c.DeleteDomainTemplate lib uuid t).1 = none ↔ res.StatusCode = 204)
    ∧ (res.StatusCode ≠ 204 →
      (c.DeleteDomainTemplate lib uuid t).1
        = some ("unexpected status code: " ++ fmtD res.StatusCode ++ ", body: " ++ res.Body)) := by
  rw [delete_run lib c uuid t hreq, hr]
  by_cases hs : res.StatusCode = 204 <;> simp [hs]

/-- Witness of C5: a 200 reply to the DELETE gives an error with the body text. -/
theorem delete_requires_status_204_witness :
    (testClient.DeleteDomainTemplate (testLib .null) "u-1"
        { sent := [], replies := [.ok { StatusCode := 200, Body := "still here" }] }).1
      = some "unexpected status code: 200, body: still here" :=
  (delete_requires_status_204 (testLib .null) testClient "u-1"
    { sent := [], replies := [.ok { StatusCode := 200, Body := "still here" }] }
    { StatusCode := 200, Body := "still here" } [] rfl rfl).2 (by decide)

/-! ## Lemmas on the reconciler -/

theorem read_of_get_ok (lib : GoLib) (c : Client) (d : ResourceData) (t t1 : Transport)
    (e : DomainTemplate) (h : c.GetDomainTemplate lib d.id t = (.ok e, t1)) :
    resourceDomainTemplateRead lib c d t
      = ([], { d with
            uuid := e.UUID, name := e.Name, slug := e.Slug, domain := e.Domain,
            allow_copy := e.AllowCopy, editable := e.Editable,
            created_at := e.CreatedAt.Format, updated_at := e.UpdatedAt.Format,
            langs := if sliceLen e.Langs = 0 then d.langs
                     else langsToState (e.Langs.getD []) }, t1) := by
  unfold resourceDomainTemplateRead
  rw [h]
  rcases hl : e.Langs with _ | ls
  · simp [sliceLen, hl]
  · rcases ls with _ | ⟨l, rest⟩ <;> simp [sliceLen, hl]

theorem read_of_get_error (lib : GoLib) (c : Client) (d : ResourceData) (t t1 : Transport)
    (err : String) (h : c.GetDomainTemplate lib d.id t = (.error err, t1)) :
    resourceDomainTemplateRead lib c d t = ([err], d, t1) := by
  unfold resourceDomainTemplateRead
  rw [h]
  rfl

theorem get_sent (lib : GoLib) (c : Client) (uuid : String) (t : Transport) :
    (c.GetDomainTemplate lib uuid t).2.sent
      = t.sent ++
        (match lib.newRequestErr "GET" (c.endpoint ++ "/api/domains/templates/" ++ uuid ++ "/") with
          | none => [getRequest c uuid]
          | some _ => []) := by
  cases h : lib.newRequestErr "GET" (c.endpoint ++ "/api/domains/templates/" ++ uuid ++ "/") with
  | some err => simp [get_fail lib c uuid t err h]
  | none => simp [get_run lib c uuid t h, Transport.after]

theorem read_sent (lib : GoLib) (c : Client) (d : ResourceData) (t : Transport) :
    (resourceDomainTemplateRead lib c d t).2.2.sent
      = t.sent ++
        (match lib.newRequestErr "GET" (c.endpoint ++ "/api/domains/templates/" ++ d.id ++ "/") with
          | none => [getRequest c d.id]
          | some _ => []) := by
  rw [← get_sent]
  rcases hg : c.GetDomainTemplate lib d.id t with ⟨r, t1⟩
  cases r with
  | error err => rw [read_of_get_error lib c d t t1 err hg]
  | ok e => rw [read_of_get_ok lib c d t t1 e hg]

theorem hasChange_watched_false (d : ResourceData)
    (h : ∀ k ∈ watchedKeys, d.HasChange k = false) :
    (d.HasChange "langs" || d.HasChange "name" || d.HasChange "slug"
      || d.HasChange "allow_copy" || d.HasChange "editable") = false := by
  simp [h "langs" (by decide), h "name" (by decide), h "slug" (by decide),
    h "allow_copy" (by decide), h "editable" (by decide)]

theorem hasChange_watched_true (d : ResourceData)
    (h : ∃ k ∈ watchedKeys, d.HasChange k = true) :
    (d.HasChange "langs" || d.HasChange "name" || d.HasChange "slug"
      || d.HasChange "allow_copy" || d.HasChange "editable") = true := by
  obtain ⟨k, hk, hc⟩ := h
  simp only [watchedKeys, List.mem_cons, List.mem_singleton, List.not_mem_nil, or_false] at hk
  rcases hk with rfl | rfl | rfl | rfl | rfl <;> simp [hc]

theorem update_unchanged (lib : GoLib) (c : Client) (d : ResourceData) (t : Transport)
    (h : ∀ k ∈ watchedKeys, d.HasChange k = false) :
    resourceDomainTemplateUpdate lib c d t = resourceDomainTemplateRead lib c d t := by
  unfold resourceDomainTemplateUpdate
  simp only [hasChange_watched_false d h]
  rfl

theorem update_changed (lib : GoLib) (c : Client) (d : ResourceData) (t : Transport)
    (h : ∃ k ∈ watchedKeys, d.HasChange k = true) :
    resourceDomainTemplateUpdate lib c d t
      = (match c.UpdateDomainTemplate lib d.id
            { Name := d.name, Slug := d.slug, AllowCopy := d.allow_copy, Editable := d.editable,
              Domain := d.domain, Langs := some (langsFromConfig d.langs 0) } t with
          | (.error err, t1) => (diagFromErr err, d, t1)
          | (.ok _, t1) => resourceDomainTemplateRead lib c d t1) := by
  unfold resourceDomainTemplateUpdate
  simp only [hasChange_watched_true d h]
  rfl

theorem after_read_sent (lib : GoLib) (c : Client) (d : ResourceData) (t : Transport) :
    ∃ rest, (resourceDomainTemplateRead lib c d t).2.2.sent = t.sent ++ rest
      ∧ (rest = [] ∨ rest = [getRequest c d.id]) := by
  rw [read_sent]
  cases lib.newRequestErr "GET" (c.endpoint ++ "/api/domains/templates/" ++ d.id ++ "/") with
  | none => exact ⟨_, rfl, Or.inr rfl⟩
  | some err => exact ⟨_, rfl, Or.inl rfl⟩

theorem update_changed_sent (lib : GoLib) (c : Client) (d : ResourceData) (t : Transport)
    (hchg : ∃ k ∈ watchedKeys, d.HasChange k = true)
    (hput : lib.newRequestErr "PUT" (c.endpoint ++ "/api/domains/templates/" ++ d.id ++ "/")
      = none) :
    ∃ rest, (resourceDomainTemplateUpdate lib c d t).2.2.sent
        = t.sent ++ putRequest c d.id
            { Name := d.name, Slug := d.slug, AllowCopy := d.allow_copy, Editable := d.editable,
              Domain := d.domain, Langs := some (langsFromConfig d.langs 0) } :: rest
      ∧ (rest = [] ∨ rest = [getRequest c d.id]) := by
  rw [update_changed lib c d t hchg, update_run lib c d.id _ t hput]
  cases (t.replies.head?).getD (.error "http: no response") with
  | error err => exact ⟨[], by simp [Transport.after], Or.inl rfl⟩
  | ok res =>
    cases hx : expectOK lib res with
    | error err => exact ⟨[], by simp [Transport.after, hx], Or.inl rfl⟩
    | ok r =>
      obtain ⟨rest, hs, hrest⟩ := after_read_sent lib c d (t.after (putRequest c d.id
        { Name := d.name, Slug := d.slug, AllowCopy := d.allow_copy, Editable := d.editable,
          Domain := d.domain, Langs := some (langsFromConfig d.langs 0) }))
      refine ⟨rest, ?_, hrest⟩
      simp only [hx, hs]
      simp [Transport.after]

theorem create_of_post (lib : GoLib) (c : Client) (d : ResourceData) (t : Transport)
    (res : Response) (more : List (Except String Response)) (C : DomainTemplate)
    (hpost : lib.newRequestErr "POST" (c.endpoint ++ "/api/domains/templates/") = none)
    (hr : t.replies = .ok res :: more) (hs : res.StatusCode = 200)
    (hd : decodeBody lib res.Body = .ok C) :
    c.CreateDomainTemplate lib
        { Name := d.name, Slug := d.slug, Domain := d.domain, AllowCopy := d.allow_copy,
          Editable := d.editable } t
      = (.ok C, t.after (postRequest c
          { Name := d.name, Slug := d.slug, Domain := d.domain, AllowCopy := d.allow_copy,
            Editable := d.editable })) := by
  rw [create_run lib c _ t hpost, hr]
  simp [(expectOK_ok lib res C).2 ⟨hs, hd⟩]

theorem create_with_langs_sent (lib : GoLib) (c : Client) (d : ResourceData) (t : Transport)
    (res : Response) (more : List (Except String Response)) (C : DomainTemplate)
    (hpost : lib.newRequestErr "POST" (c.endpoint ++ "/api/domains/templates/") = none)
    (hr : t.replies = .ok res :: more) (hs : res.StatusCode = 200)
    (hd : decodeBody lib res.Body = .ok C) (hl : d.langs ≠ [])
    (hput : lib.newRequestErr "PUT" (c.endpoint ++ "/api/domains/templates/" ++ C.UUID ++ "/")
      = none) :
    ∃ rest, (resourceDomainTemplateCreate lib c d t).2.2.sent
        = t.sent ++ postRequest c
            { Name := d.name, Slug := d.slug, Domain := d.domain, AllowCopy := d.allow_copy,
              Editable := d.editable }
          :: putRequest c C.UUID
            { Name := C.Name, Slug := C.Slug, Domain := C.Domain, AllowCopy := C.AllowCopy,
              Editable := C.Editable, Langs := some (langsFromConfig d.langs C.ID) }
          :: rest
      ∧ (rest = [] ∨ rest = [getRequest c C.UUID]) := by
  have hlen : d.langs.length > 0 := List.length_pos.mpr hl
  unfold resourceDomainTemplateCreate
  simp only [create_of_post lib c d t res more C hpost hr hs hd, hlen, if_true]
  rw [update_run lib c C.UUID _ _ hput]
  cases (((t.after (postRequest c
      { Name := d.name, Slug := d.slug, Domain := d.domain, AllowCopy := d.allow_copy,
        Editable := d.editable })).replies.head?).getD (.error "http: no response")) with
  | error err => exact ⟨[], by simp [Transport.after], Or.inl rfl⟩
  | ok res2 =>
    cases hx : expectOK lib res2 with
    | error err => exact ⟨[], by simp [Transport.after, hx], Or.inl rfl⟩
    | ok r =>
      obtain ⟨rest, hsent, hrest⟩ := after_read_sent lib c { d with id := C.UUID }
        ((t.after (postRequest c
          { Name := d.name, Slug := d.slug, Domain := d.domain, AllowCopy := d.allow_copy,
            Editable := d.editable })).after (putRequest c C.UUID
          { Name := C.Name, Slug := C.Slug, Domain := C.Domain, AllowCopy := C.AllowCopy,
            Editable := C.Editable, Langs := some (langsFromConfig d.langs C.ID) }))
      refine ⟨rest, ?_, hrest⟩
      simp only [hx, hsent]
      simp [Transport.after]

theorem create_without_langs_sent (lib : GoLib) (c : Client) (d : ResourceData) (t : Transport)
    (hl : d.langs = []) :
    ∃ new, (resourceDomainTemplateCreate lib c d t).2.2.sent = t.sent ++ new
      ∧ ∀ q ∈ new, q.method = "POST" ∨ q.method = "GET" := by
  have hlen : ¬ (d.langs.length > 0) := by simp [hl]
  unfold resourceDomainTemplateCreate
  simp only [hlen, if_false]
  cases hpost : lib.newRequestErr "POST" (c.endpoint ++ "/api/domains/templates/") with
  | some err =>
    rw [create_fail lib c _ t err hpost]
    exact ⟨[], by simp, by simp⟩
  | none =>
    rw [create_run lib c _ t hpost]
    cases (t.replies.head?).getD (.error "http: no response") with
    | error err =>
      exact ⟨[postRequest c
        { Name := d.name, Slug := d.slug, Domain := d.domain, AllowCopy := d.allow_copy,
          Editable := d.editable }], by simp [Transport.after], by simp [postRequest]⟩
    | ok res =>
      cases hx : expectOK lib res with
      | error err =>
        exact ⟨[postRequest c
          { Name := d.name, Slug := d.slug, Domain := d.domain, AllowCopy := d.allow_copy,
            Editable := d.editable }], by simp [Transport.after, hx], by simp [postRequest]⟩
      | ok C =>
        obtain ⟨rest, hsent, hrest⟩ := after_read_sent lib c { d with id := C.UUID }
          (t.after (postRequest c
            { Name := d.name, Slug := d.slug, Domain := d.domain, AllowCopy := d.allow_copy,
              Editable := d.editable }))
        refine ⟨postRequest c
            { Name := d.name, Slug := d.slug, Domain := d.domain, AllowCopy := d.allow_copy,
              Editable := d.editable } :: rest, ?_, ?_⟩
        · simp only [hx, hsent]
          simp [Transport.after]
        · intro q hq
          rcases List.mem_cons.mp hq with rfl | hq
          · exact Or.inl rfl
          · rcases hrest with rfl | rfl
            · simp at hq
            · rw [List.mem_singleton.mp hq]; exact Or.inr rfl

theorem get_ok_iff (lib : GoLib) (c : Client) (uuid : String) (t : Transport) (e : DomainTemplate) :
    (c.GetDomainTemplate lib uuid t).1 = .ok e
      ↔ lib.newRequestErr "GET" (c.endpoint ++ "/api/domains/templates/" ++ uuid ++ "/") = none
        ∧ ∃ res rest, t.replies = .ok res :: rest ∧ res.StatusCode = 200
          ∧ decodeBody lib res.Body = .ok e := by
  cases hreq : lib.newRequestErr "GET" (c.endpoint ++ "/api/domains/templates/" ++ uuid ++ "/") with
  | some err => simp [get_fail lib c uuid t err hreq]
  | none =>
    rw [get_run lib c uuid t hreq]
    rcases hrep : t.replies with _ | ⟨rep, rest⟩
    · simp
    · cases rep with
      | error err => simp
      | ok res => simp [expectOK_ok]

theorem read_diag_nil_iff (lib : GoLib) (c : Client) (d : ResourceData) (t : Transport) :
    (resourceDomainTemplateRead lib c d t).1 = []
      ↔ ∃ e, (c.GetDomainTemplate lib d.id t).1 = .ok e := by
  rcases hg : c.GetDomainTemplate lib d.id t with ⟨r, t1⟩
  cases r with
  | error err => simp [read_of_get_error lib c d t t1 err hg]
  | ok e => simp [read_of_get_ok lib c d t t1 e hg]

theorem delete_diag_nil_iff (lib : GoLib) (c : Client) (d : ResourceData) (t : Transport) :
    (resourceDomainTemplateDelete lib c d t).1 = []
      ↔ lib.newRequestErr "DELETE" (c.endpoint ++ "/api/domains/templates/" ++ d.id ++ "/") = none
        ∧ ∃ res rest, t.replies = .ok res :: rest ∧ res.StatusCode = 204 := by
  unfold resourceDomainTemplateDelete
  cases hreq : lib.newRequestErr "DELETE"
      (c.endpoint ++ "/api/domains/templates/" ++ d.id ++ "/") with
  | some err => simp [delete_fail lib c d.id t err hreq, diagFromErr]
  | none =>
    rw [delete_run lib c d.id t hreq]
    rcases hrep : t.replies with _ | ⟨rep, rest⟩
    · simp [diagFromErr]
    · cases rep with
      | error err => simp [diagFromErr]
      | ok res =>
        by_cases hs : res.StatusCode = 204 <;> simp [hs, diagFromErr]

theorem empty_uuid_url (endpoint : String) :
    endpoint ++ "/api/domains/templates/" ++ "" ++ "/" = endpoint ++ "/api/domains/templates//" := by
  have e1 : "/api/domains/templates//" = "/api/domains/templates/" ++ "/" := by decide
  rw [e1, String.append_empty, String.append_assoc]

/-! ## The claims on the codec -/

/-- C2 (amended): for every DomainTemplateLang L and DomainTemplate E whose integers fit
`int` and whose times are read back by the time parser, decoding the encoding
of L gives L, and decoding the encoding of E gives E with an empty `langs`
slice turned into nil; so it gives E itself whenever `langs` is nil or
non-empty. -/
theorem codec_roundtrip_up_to_empty_langs (lib : GoLib) (E : DomainTemplate)
    (L : DomainTemplateLang) :
    (validLang lib L = true →
      decodeDomainTemplateLang lib (encodeDomainTemplateLang L) = some L)
    ∧ (validTemplate lib E = true →
      decodeDomainTemplate lib (encodeDomainTemplate E)
        = some { E with Langs := nilIfEmpty E.Langs })
    ∧ (validTemplate lib E = true → E.Langs ≠ some [] →
      decodeDomainTemplate lib (encodeDomainTemplate E) = some E) := by
  refine ⟨decode_encode_lang lib L, decode_encode_template lib E, fun hv hne => ?_⟩
  rw [decode_encode_template lib E hv, nilIfEmpty_of_ne E.Langs hne]

/-- Witness of C2 (amended): the scenario's entity, with one lang, comes back
unchanged. -/
theorem codec_roundtrip_up_to_empty_langs_witness :
    decodeDomainTemplate (testLib .null) (encodeDomainTemplate scenarioEntity)
      = some scenarioEntity :=
  (codec_roundtrip_up_to_empty_langs (testLib .null) scenarioEntity {}).2.2
    (by decide) (by decide)

/-- Counterexample to C2 as stated: a valid DomainTemplate whose `langs` is the empty
non-nil slice (what Update builds for a configuration without langs) is
encoded without a `langs` key and decoded with nil `langs`, which is not the
value that was encoded. -/
theorem codec_roundtrip_empty_langs_counterexample :
    validTemplate (testLib .null)
        { Name := "Welcome", Slug := "welcome-1", Domain := 5, Langs := some [] } = true
    ∧ decodeDomainTemplate (testLib .null)
        (encodeDomainTemplate
          { Name := "Welcome", Slug := "welcome-1", Domain := 5, Langs := some [] })
      = some { Name := "Welcome", Slug := "welcome-1", Domain := 5, Langs := none }
    ∧ decodeDomainTemplate (testLib .null)
        (encodeDomainTemplate
          { Name := "Welcome", Slug := "welcome-1", Domain := 5, Langs := some [] })
      ≠ some { Name := "Welcome", Slug := "welcome-1", Domain := 5, Langs := some [] } := by
  decide

/-- C9: the encoded DomainTemplate has an `allow_copy` key exactly when AllowCopy is true
and an `editable` key exactly when Editable is true; with the flag false the
object is the one for the flag true with that member removed; and this object
is the body of the POST of CreateDomainTemplate and of the PUT of UpdateDomainTemplate, in
particular of the POST resourceDomainTemplateCreate makes from the configuration. -/
theorem omitempty_drops_false_flags (lib : GoLib) (c : Client) (e : DomainTemplate)
    (d : ResourceData) (uuid : String) (t : Transport) :
    ("allow_copy" ∈ (encodeDomainTemplate e).keys ↔ e.AllowCopy = true)
    ∧ ("editable" ∈ (encodeDomainTemplate e).keys ↔ e.Editable = true)
    ∧ encodeDomainTemplate { e with AllowCopy := false }
        = (encodeDomainTemplate { e with AllowCopy := true }).without "allow_copy"
    ∧ encodeDomainTemplate { e with Editable := false }
        = (encodeDomainTemplate { e with Editable := true }).without "editable"
    ∧ (lib.newRequestErr "POST" (c.endpoint ++ "/api/domains/templates/") = none →
        (c.CreateDomainTemplate lib e t).2.sent
          = t.sent ++ [{ method := "POST", url := c.endpoint ++ "/api/domains/templates/",
                         header := [("Content-Type", "application/json"),
                                    ("Authorization", c.token)],
                         body := some (encodeDomainTemplate e) }])
    ∧ (lib.newRequestErr "PUT" (c.endpoint ++ "/api/domains/templates/" ++ uuid ++ "/") = none →
        (c.UpdateDomainTemplate lib uuid e t).2.sent
          = t.sent ++ [{ method := "PUT",
                         url := c.endpoint ++ "/api/domains/templates/" ++ uuid ++ "/",
                         header := [("Content-Type", "application/json"),
                                    ("Authorization", c.token)],
                         body := some (encodeDomainTemplate e) }])
    ∧ (lib.newRequestErr "POST" (c.endpoint ++ "/api/domains/templates/") = none →
        ((resourceDomainTemplateCreate lib c d t).2.2.sent.drop t.sent.length).head?.bind
            Request.body
          = some (encodeDomainTemplate
              { Name := d.name, Slug := d.slug, Domain := d.domain,
                AllowCopy := d.allow_copy, Editable := d.editable })) := by
  refine ⟨?_, ?_, ?_, ?_, ?_, ?_, ?_⟩
  · obtain ⟨id, uuid, ca, ua, name, slug, ac, ed, dom, langs⟩ := e
    by_cases hid : id = 0 <;> by_cases hu : uuid = "" <;> cases ac <;> cases ed <;>
      by_cases hl : sliceLen langs = 0 <;>
      simp [encodeDomainTemplate, JVal.keys, omitEmpty, hid, hu, hl]
  · obtain ⟨id, uuid, ca, ua, name, slug, ac, ed, dom, langs⟩ := e
    by_cases hid : id = 0 <;> by_cases hu : uuid = "" <;> cases ac <;> cases ed <;>
      by_cases hl : sliceLen langs = 0 <;>
      simp [encodeDomainTemplate, JVal.keys, omitEmpty, hid, hu, hl]
  · obtain ⟨id, uuid, ca, ua, name, slug, ac, ed, dom, langs⟩ := e
    by_cases hid : id = 0 <;> by_cases hu : uuid = "" <;> cases ed <;>
      by_cases hl : sliceLen langs = 0 <;>
      simp [encodeDomainTemplate, JVal.without, omitEmpty, hid, hu, hl]
  · obtain ⟨id, uuid, ca, ua, name, slug, ac, ed, dom, langs⟩ := e
    by_cases hid : id = 0 <;> by_cases hu : uuid = "" <;> cases ac <;>
      by_cases hl : sliceLen langs = 0 <;>
      simp [encodeDomainTemplate, JVal.without, omitEmpty, hid, hu, hl]
  · intro h
    simp [create_run lib c e t h, Transport.after, postRequest]
  · intro h
    simp [update_run lib c uuid e t h, Transport.after, putRequest]
  · intro h
    by_cases hl : d.langs = []
    · have hlen : ¬ (d.langs.length > 0) := by simp [hl]
      unfold resourceDomainTemplateCreate
      simp only [hlen, if_false]
      rw [create_run lib c _ t h]
      cases (t.replies.head?).getD (.error "http: no response") with
      | error err => simp [Transport.after, postRequest]
      | ok res =>
        cases hx : expectOK lib res with
        | error err => simp [Transport.after, postRequest, hx]
        | ok C =>
          obtain ⟨rest, hsent, -⟩ := after_read_sent lib c { d with id := C.UUID }
            (t.after (postRequest c
              { Name := d.name, Slug := d.slug, Domain := d.domain, AllowCopy := d.allow_copy,
                Editable := d.editable }))
          simp only [hx, hsent]
          simp [Transport.after, postRequest]
    · have hlen : d.langs.length > 0 := List.length_pos.mpr hl
      unfold resourceDomainTemplateCreate
      simp only [hlen, if_true]
      rw [create_run lib c _ t h]
      cases (t.replies.head?).getD (.error "http: no response") with
      | error err => simp [Transport.after, postRequest]
      | ok res =>
        cases hx : expectOK lib res with
        | error err => simp [Transport.after, postRequest, hx]
        | ok C =>
          simp only [hx]
          cases hput : lib.newRequestErr "PUT"
              (c.endpoint ++ "/api/domains/templates/" ++ C.UUID ++ "/") with
          | some err =>
            rw [update_fail lib c C.UUID _ _ err hput]
            simp [Transport.after, postRequest]
          | none =>
            rw [update_run lib c C.UUID _ _ hput]
            cases (((t.after (postRequest c
                { Name := d.name, Slug := d.slug, Domain := d.domain,
                  AllowCopy := d.allow_copy, Editable := d.editable })).replies.head?).getD
                (.error "http: no response")) with
            | error err => simp [Transport.after, postRequest]
            | ok res2 =>
              cases hy : expectOK lib res2 with
              | error err => simp [Transport.after, postRequest, hy]
              | ok r =>
                obtain ⟨rest, hsent, -⟩ := after_read_sent lib c { d with id := C.UUID }
                  ((t.after (postRequest c
                    { Name := d.name, Slug := d.slug, Domain := d.domain,
                      AllowCopy := d.allow_copy, Editable := d.editable })).after
                    (putRequest c C.UUID
                      { Name := C.Name, Slug := C.Slug, Domain := C.Domain,
                        AllowCopy := C.AllowCopy, Editable := C.Editable,
                        Langs := some (langsFromConfig d.langs C.ID) }))
                simp only [hy, hsent]
                simp [Transport.after, postRequest]

/-- Witness of C9: with allow_copy and editable false in the configuration, the
body of the POST is the object of the four always-present members and domain. -/
theorem omitempty_drops_false_flags_witness :
    ((resourceDomainTemplateCreate (testLib scenarioReply) testClient
          { scenarioConfig with allow_copy := false, editable := false }
          { sent := [], replies := [] }).2.2.sent.drop 0).head?.bind Request.body
      = some (encodeDomainTemplate
          { Name := "Welcome", Slug := "welcome-1", Domain := 5,
            AllowCopy := false, Editable := false }) :=
  (omitempty_drops_false_flags (testLib scenarioReply) testClient {}
      { scenarioConfig with allow_copy := false, editable := false } ""
      { sent := [], replies := [] }).2.2.2.2.2.2 rfl

/-! ## The claims on the reconciler -/

/-- C3 (amended): when none of langs, name, slug, allow_copy, editable has changed,
resourceDomainTemplateUpdate makes no update call: it is exactly the trailing
resourceDomainTemplateRead, and the only request it sends is that Read's GET of the
instance (none at all when the GET cannot be built). -/
theorem update_unchanged_sends_only_get (lib : GoLib) (c : Client) (d : ResourceData)
    (t : Transport) (h : ∀ k ∈ watchedKeys, d.HasChange k = false) :
    resourceDomainTemplateUpdate lib c d t = resourceDomainTemplateRead lib c d t
    ∧ (resourceDomainTemplateUpdate lib c d t).2.2.sent
        = t.sent ++
          (match lib.newRequestErr "GET"
              (c.endpoint ++ "/api/domains/templates/" ++ d.id ++ "/") with
            | none =>
              [{ method := "GET", url := c.endpoint ++ "/api/domains/templates/" ++ d.id ++ "/",
                 header := [("Authorization", c.token)], body := none }]
            | some _ => []) := by
  refine ⟨update_unchanged lib c d t h, ?_⟩
  rw [update_unchanged lib c d t h, read_sent]
  rfl

/-- Witness of C3 (amended): the scenario's instance with nothing changed. -/
theorem update_unchanged_sends_only_get_witness :
    resourceDomainTemplateUpdate (testLib scenarioReply) testClient
        { scenarioConfig with id := "u-7" }
        { sent := [], replies := [.ok { StatusCode := 200, Body := "" }] }
      = resourceDomainTemplateRead (testLib scenarioReply) testClient
        { scenarioConfig with id := "u-7" }
        { sent := [], replies := [.ok { StatusCode := 200, Body := "" }] } :=
  (update_unchanged_sends_only_get (testLib scenarioReply) testClient
    { scenarioConfig with id := "u-7" }
    { sent := [], replies := [.ok { StatusCode := 200, Body := "" }] } (by decide)).1

/-- Counterexample to C3 as stated: with no key reported as changed, Update still
sends one request, the GET of the trailing Read. -/
theorem update_unchanged_network_call_counterexample :
    (∀ k ∈ watchedKeys, ({ scenarioConfig with id := "u-7" } : ResourceData).HasChange k = false)
    ∧ ((resourceDomainTemplateUpdate (testLib scenarioReply) testClient
          { scenarioConfig with id := "u-7" }
          { sent := [], replies := [.ok { StatusCode := 200, Body := "" }] }).2.2.sent.map
        (fun q => (q.method, q.url)))
      = [("GET", "https://api.fmailer.com/api/domains/templates/u-7/")] := by
  decide

/-- C10: when at least one of langs, name, slug, allow_copy, editable has changed (and
the PUT can be built), resourceDomainTemplateUpdate sends exactly one PUT, to the instance's
id; its payload has the configuration's scalar fields, empty id and uuid, and
one lang per configured lang, in order, with lang, subject, body and default
copied and template 0; the only request after it is the GET of the trailing Read. -/
theorem update_changed_sends_one_put (lib : GoLib) (c : Client) (d : ResourceData)
    (t : Transport) (hchg : ∃ k ∈ watchedKeys, d.HasChange k = true)
    (hput : lib.newRequestErr "PUT" (c.endpoint ++ "/api/domains/templates/" ++ d.id ++ "/")
      = none) :
    ∃ rest, (resourceDomainTemplateUpdate lib c d t).2.2.sent
        = t.sent ++
          { method := "PUT", url := c.endpoint ++ "/api/domains/templates/" ++ d.id ++ "/",
            header := [("Content-Type", "application/json"), ("Authorization", c.token)],
            body := some (encodeDomainTemplate
              { ID := 0, UUID := "", Name := d.name, Slug := d.slug, AllowCopy := d.allow_copy,
                Editable := d.editable, Domain := d.domain,
                Langs := some (d.langs.map (fun l =>
                  { Lang := l.lang, Subject := l.subject, Body := l.body,
                    Default := l.default, Template := 0 })) }) } :: rest
      ∧ (rest = [] ∨ rest = [getRequest c d.id]) :=
  update_changed_sent lib c d t hchg hput

/-- Witness of C10: the scenario's instance with its name changed. -/
theorem update_changed_sends_one_put_witness :
    ∃ rest, (resourceDomainTemplateUpdate (testLib scenarioReply) testClient
          { scenarioConfig with id := "u-7", changed := ["name"] }
          { sent := [], replies := [] }).2.2.sent
        = [] ++
          { method := "PUT", url := "https://api.fmailer.com" ++ "/api/domains/templates/"
                                      ++ "u-7" ++ "/",
            header := [("Content-Type", "application/json"), ("Authorization", "tok")],
            body := some (encodeDomainTemplate
              { ID := 0, UUID := "", Name := "Welcome", Slug := "welcome-1", AllowCopy := true,
                Editable := true, Domain := 5,
                Langs := some [{ Lang := "en", Subject := "Hi", Body := "Hello",
                                 Default := true, Template := 0 }] }) } :: rest
      ∧ (rest = [] ∨ rest = [getRequest testClient "u-7"]) :=
  update_changed_sends_one_put (testLib scenarioReply) testClient
    { scenarioConfig with id := "u-7", changed := ["name"] }
    { sent := [], replies := [] } (by decide) rfl

/-- C6: after a create response with status 200 that decodes to C, and with a
non-empty configured langs list (and a PUT that can be built),
resourceDomainTemplateCreate sends the POST and then one PUT to C.uuid whose payload has
name, slug, domain, allow_copy, editable of C and one lang per configured lang,
in order, with lang, subject, body, default copied and template C.id; only the
GET of the trailing Read can follow. With an empty configured langs list every
request sent is a POST or a GET, so no PUT is sent. -/
theorem create_attaches_langs_by_put (lib : GoLib) (c : Client) (d : ResourceData)
    (t : Transport) :
    (∀ res more C,
      lib.newRequestErr "POST" (c.endpoint ++ "/api/domains/templates/") = none →
      t.replies = .ok res :: more → res.StatusCode = 200 → decodeBody lib res.Body = .ok C →
      d.langs ≠ [] →
      lib.newRequestErr "PUT" (c.endpoint ++ "/api/domains/templates/" ++ C.UUID ++ "/") = none →
      ∃ rest, (resourceDomainTemplateCreate lib c d t).2.2.sent
          = t.sent ++
            { method := "POST", url := c.endpoint ++ "/api/domains/templates/",
              header := [("Content-Type", "application/json"), ("Authorization", c.token)],
              body := some (encodeDomainTemplate
                { Name := d.name, Slug := d.slug, Domain := d.domain,
                  AllowCopy := d.allow_copy, Editable := d.editable }) }
            :: { method := "PUT",
                 url := c.endpoint ++ "/api/domains/templates/" ++ C.UUID ++ "/",
                 header := [("Content-Type", "application/json"), ("Authorization", c.token)],
                 body := some (encodeDomainTemplate
                   { Name := C.Name, Slug := C.Slug, Domain := C.Domain,
                     AllowCopy := C.AllowCopy, Editable := C.Editable,
                     Langs := some (d.langs.map (fun l =>
                       { Lang := l.lang, Subject := l.subject, Body := l.body,
                         Default := l.default, Template := C.ID })) }) }
            :: rest
        ∧ (rest = [] ∨ rest = [getRequest c C.UUID]))
    ∧ (d.langs = [] →
      ∃ new, (resourceDomainTemplateCreate lib c d t).2.2.sent = t.sent ++ new
        ∧ ∀ q ∈ new, q.method = "POST" ∨ q.method = "GET") :=
  ⟨fun res more C hpost hr hs hd hl hput =>
      create_with_langs_sent lib c d t res more C hpost hr hs hd hl hput,
    create_without_langs_sent lib c d t⟩

/-- Witness of C6: the specification's scenario, the server answering the POST with
the created template. -/
theorem create_attaches_langs_by_put_witness :
    ∃ rest, (resourceDomainTemplateCreate (testLib scenarioReply) testClient scenarioConfig
          { sent := [], replies := [.ok { StatusCode := 200, Body := "" }] }).2.2.sent
        = [] ++
          { method := "POST", url := "https://api.fmailer.com" ++ "/api/domains/templates/",
            header := [("Content-Type", "application/json"), ("Authorization", "tok")],
            body := some (encodeDomainTemplate
              { Name := "Welcome", Slug := "welcome-1", Domain := 5,
                AllowCopy := true, Editable := true }) }
          :: { method := "PUT",
               url := "https://api.fmailer.com" ++ "/api/domains/templates/" ++ "u-7" ++ "/",
               header := [("Content-Type", "application/json"), ("Authorization", "tok")],
               body := some (encodeDomainTemplate
                 { Name := "Welcome", Slug := "welcome-1", Domain := 5,
                   AllowCopy := true, Editable := true,
                   Langs := some [{ Lang := "en", Subject := "Hi", Body := "Hello",
                                    Default := true, Template := 7 }] }) }
          :: rest
      ∧ (rest = [] ∨ rest = [getRequest testClient "u-7"]) :=
  (create_attaches_langs_by_put (testLib scenarioReply) testClient scenarioConfig
    { sent := [], replies := [.ok { StatusCode := 200, Body := "" }] }).1
    { StatusCode := 200, Body := "" } [] scenarioEntity rfl rfl rfl rfl (by decide) rfl

/-- C7: when GetDomainTemplate returns an entity, resourceDomainTemplateRead reports no error,
overwrites uuid, name, slug, domain, allow_copy, editable with the entity's
values, leaves langs as it was when the entity's langs are nil or empty, and
otherwise replaces langs by one entry per remote lang, in the remote order, with
its lang, subject, body and default. -/
theorem read_maps_entity_into_state (lib : GoLib) (c : Client) (d : ResourceData)
    (t t1 : Transport) (e : DomainTemplate)
    (h : c.GetDomainTemplate lib d.id t = (.ok e, t1)) :
    (resourceDomainTemplateRead lib c d t).1 = []
    ∧ (resourceDomainTemplateRead lib c d t).2.1.uuid = e.UUID
    ∧ (resourceDomainTemplateRead lib c d t).2.1.name = e.Name
    ∧ (resourceDomainTemplateRead lib c d t).2.1.slug = e.Slug
    ∧ (resourceDomainTemplateRead lib c d t).2.1.domain = e.Domain
    ∧ (resourceDomainTemplateRead lib c d t).2.1.allow_copy = e.AllowCopy
    ∧ (resourceDomainTemplateRead lib c d t).2.1.editable = e.Editable
    ∧ (sliceLen e.Langs = 0 → (resourceDomainTemplateRead lib c d t).2.1.langs = d.langs)
    ∧ (sliceLen e.Langs ≠ 0 →
        (resourceDomainTemplateRead lib c d t).2.1.langs
          = (e.Langs.getD []).map (fun l =>
              { lang := l.Lang, subject := l.Subject, body := l.Body, default := l.Default })) := by
  rw [read_of_get_ok lib c d t t1 e h]
  refine ⟨rfl, rfl, rfl, rfl, rfl, rfl, rfl, ?_, ?_⟩
  · intro h0
    simp [h0]
  · intro h0
    simp [h0, langsToState]

/-- Witness of C7: the scenario's entity, fetched into a state that held another
lang, replaces it by the remote one. -/
theorem read_maps_entity_into_state_witness :
    (resourceDomainTemplateRead (testLib scenarioReply) testClient
        { id := "u-7", langs := [{ lang := "de", subject := "Hallo", body := "Welt",
                                   default := false }] }
        { sent := [], replies := [.ok { StatusCode := 200, Body := "" }] }).2.1.langs
      = (scenarioEntity.Langs.getD []).map (fun l =>
          { lang := l.Lang, subject := l.Subject, body := l.Body, default := l.Default }) :=
  (read_maps_entity_into_state (testLib scenarioReply) testClient
    { id := "u-7", langs := [{ lang := "de", subject := "Hallo", body := "Welt",
                               default := false }] }
    { sent := [], replies := [.ok { StatusCode := 200, Body := "" }] }
    { sent := [getRequest testClient "u-7"], replies := [] }
    scenarioEntity rfl).2.2.2.2.2.2.2.2 (by decide)

/-- C8 (amended): with an empty id, Read and Delete make no check of their own: they
address the URL with an empty uuid segment, and Read reports no error exactly
when that GET can be built and is answered with status 200 and a body that
decodes, Delete exactly when that DELETE can be built and is answered with
status 204; in every other case they return an error diagnostic. -/
theorem empty_id_error_iff_client_error (lib : GoLib) (c : Client) (d : ResourceData)
    (t : Transport) (hid : d.id = "") :
    ((resourceDomainTemplateRead lib c d t).1 = []
      ↔ lib.newRequestErr "GET" (c.endpoint ++ "/api/domains/templates//") = none
        ∧ ∃ res rest e, t.replies = .ok res :: rest ∧ res.StatusCode = 200
          ∧ decodeBody lib res.Body = .ok e)
    ∧ ((resourceDomainTemplateDelete lib c d t).1 = []
      ↔ lib.newRequestErr "DELETE" (c.endpoint ++ "/api/domains/templates//") = none
        ∧ ∃ res rest, t.replies = .ok res :: rest ∧ res.StatusCode = 204) := by
  constructor
  · rw [read_diag_nil_iff, hid, ← empty_uuid_url]
    constructor
    · rintro ⟨e, he⟩
      obtain ⟨h1, res, rest, h2, h3, h4⟩ := (get_ok_iff lib c "" t e).1 he
      exact ⟨h1, res, rest, e, h2, h3, h4⟩
    · rintro ⟨h1, res, rest, e, h2, h3, h4⟩
      exact ⟨e, (get_ok_iff lib c "" t e).2 ⟨h1, res, rest, h2, h3, h4⟩⟩
  · rw [delete_diag_nil_iff, hid, ← empty_uuid_url]

/-- Witness of C8 (amended): with an empty id and a 404 answer, Read reports an
error. -/
theorem empty_id_error_iff_client_error_witness :
    ¬ (resourceDomainTemplateRead (testLib scenarioReply) testClient { id := "" }
        { sent := [], replies := [.ok { StatusCode := 404, Body := "" }] }).1 = [] :=
  fun h =>
    absurd ((empty_id_error_iff_client_error (testLib scenarioReply) testClient { id := "" }
      { sent := [], replies := [.ok { StatusCode := 404, Body := "" }] } rfl).1.1 h)
      (by
        rintro ⟨-, res, rest, e, h2, h3, -⟩
        simp only [List.cons.injEq, Except.ok.injEq] at h2
        rw [← h2.1] at h3
        exact absurd h3 (by decide))

/-- Counterexample to C8 as stated: with an empty id, Read returns no diagnostic when
the server answers the GET with status 200 and a template, and Delete returns
none when the server answers the DELETE with status 204. -/
theorem empty_id_no_error_counterexample :
    ({ id := "" } : ResourceData).id = ""
    ∧ (resourceDomainTemplateRead (testLib scenarioReply) testClient { id := "" }
        { sent := [], replies := [.ok { StatusCode := 200, Body := "" }] }).1 = []
    ∧ (resourceDomainTemplateDelete (testLib scenarioReply) testClient { id := "" }
        { sent := [], replies := [.ok { StatusCode := 204, Body := "" }] }).1 = [] := by
  decide

end FMailer
